import Mathlib

/-!
# Verification of the porkbun-go DNS client (`dns.go`)

A shallow embedding of `dns.go` from `blmhemu/porkbun-go`.  Pure Go
functions become Lean functions; the side effects that matter to the
specification — `Body.Close()` calls and nil-pointer dereferences
(panics) — are made explicit in the return types:

* Go's `(*T, error)` pairs become `Option _ × Option GoError`, where a
  `nil` pointer is `none`;
* the transport call `http.Client.Post` is modelled by its outcome
  `PostResult`, encoding Go's documented contract that a `nil` error
  comes with a non-nil response;
* each operation returns an `OpResult`: either a normal return
  (carrying the returned response pointer, the returned error, and the
  number of `Body.Close()` calls performed through a valid response
  handle) or a panic from dereferencing a nil `*http.Response`;
* Go's `encoding/json` output for the payload structs is modelled at
  the level of the top-level field list it produces (declaration order,
  embedded structs flattened first, `omitempty` dropping zero values).
-/

set_option autoImplicit false

namespace Porkbun

/-- A JSON value occurring in a payload field.  Every field of `Auth` and
`DNSRecord` serializes to a string or a number, so the payload object is
flat by construction: no value is itself an object or array. -/
inductive JValue where
  | str (s : String)
  | num (n : Int)
  deriving Repr, DecidableEq

/-- `type Auth struct` — credentials, with `json:"apikey,omitempty"` /
`json:"secretapikey,omitempty"` tags. -/
structure Auth where
  APIKey : String
  SecretAPIKey : String
  deriving Repr, DecidableEq

/-- `type DNSRecord struct`.  Go's `Type` field is `«Type»` here; `Prio`
is `*uint16` in Go, i.e. an optional number. -/
structure DNSRecord where
  ID : String
  Name : String
  «Type» : String
  Content : String
  TTL : Int
  Prio : Option Nat
  Notes : String
  deriving Repr, DecidableEq

/-- `type DNSResponse struct` — the API response envelope. -/
structure DNSResponse where
  Status : String
  Id : String
  Records : List DNSRecord
  deriving Repr, DecidableEq

/-- `&DNSResponse{}` — the zero-valued response the error paths return a
pointer to. -/
def emptyDNSResponse : DNSResponse :=
  { Status := "", Id := "", Records := [] }

/-- `type dnsRecordWithAuth struct { Auth; DNSRecord }` — the combined
payload struct with both structs embedded. -/
structure dnsRecordWithAuth where
  auth : Auth
  record : DNSRecord
  deriving Repr, DecidableEq

/-- `const STATUS_SUCCESS = "SUCCESS"` -/
def STATUS_SUCCESS : String := "SUCCESS"

/-- ASCII simple case folding of one character, as `strings.EqualFold`
performs on ASCII input (upper-case letters fold to lower-case). -/
def asciiFoldChar (c : Char) : Char :=
  if 'A' ≤ c ∧ c ≤ 'Z' then Char.ofNat (c.toNat + 32) else c

/-- `strings.EqualFold(s, t)`: case-insensitive equality.  Modelled via
ASCII case folding, which agrees with Go's Unicode simple folding on all
ASCII strings (and `STATUS_SUCCESS` is ASCII). -/
def stringEqualFold (s t : String) : Bool :=
  s.data.map asciiFoldChar == t.data.map asciiFoldChar

/-- The errors `dns.go` constructs (via `fmt.Errorf`) or passes through,
by their kind and the data interpolated into the message. -/
inductive GoError where
  | transport (e : String)
  | unexpectedStatus (code : Nat) (body : String)
  | apiStatus (status : String)
  | decodeFail
  | marshalFail
  | config (msg : String)
  deriving Repr, DecidableEq

/-- The message string `fmt.Errorf` renders for each error of `dns.go`
(`NewClient`'s two messages are kept as the `config` payload). -/
def errMessage : GoError → String
  | .transport e => e
  | .unexpectedStatus code body =>
      "Unexpected response code: " ++ toString code ++ " (" ++ body ++ ")"
  | .apiStatus status => "Expected `success` code, got " ++ status
  | .decodeFail => "Error decoding DNSResponse json"
  | .marshalFail => "Error creating json"
  | .config msg => msg

/-- An `*http.Response` as far as `dns.go` looks at it: the status code,
the raw body text (read by `generateUnexpectedResponseCodeError`), and
the result of JSON-decoding the body as a `DNSResponse` (`none` when the
body is not valid JSON for it). -/
structure HTTPResponse where
  statusCode : Nat
  bodyText : String
  bodyDecode : Option DNSResponse
  deriving Repr, DecidableEq

/-- The outcome of `http.Client.Post`: on success (`err == nil`) the
response is non-nil; on failure the response is usually nil but may be
non-nil (Go permits it, and `requireOK` guards for it). -/
inductive PostResult where
  | ok (res : HTTPResponse)
  | fail (res : Option HTTPResponse) (e : String)
  deriving Repr, DecidableEq

/-- What one of the four operations does: either return normally with a
response pointer (`none` = nil pointer), an error, and the number of
`Body.Close()` calls made through a valid (non-nil) response handle; or
panic on a nil `*http.Response` dereference, after `closes` such calls. -/
inductive OpResult where
  | ret (resp : Option DNSResponse) (err : Option GoError) (closes : Nat)
  | panicked (closes : Nat)
  deriving Repr, DecidableEq

/-! ## Payload construction (`encoding/json` field model)

Go's `json.Marshal` writes struct fields in declaration order (embedded
structs flattened in place), omitting a field tagged `omitempty` when its
value is the zero value of its type (`""`, `0`, nil pointer).  Since no
promoted field names collide between `Auth` and `DNSRecord`, all fields
of both embedded structs are promoted.  `json.Marshal` cannot fail on
these types (strings, ints, integer pointer), so the marshal-error
branches of `getAuthJson` / `getDNSRecordWithAuthJson` are unreachable
and the two functions are modelled as total, returning the top-level
field list of the JSON object they produce. -/

/-- Top-level JSON fields of a marshalled `Auth`. -/
def Auth.jsonFields (a : Auth) : List (String × JValue) :=
  (if a.APIKey = "" then [] else [("apikey", JValue.str a.APIKey)]) ++
  (if a.SecretAPIKey = "" then [] else [("secretapikey", JValue.str a.SecretAPIKey)])

/-- Top-level JSON fields of a marshalled `DNSRecord` (all tagged
`omitempty`; a non-nil `Prio` pointer is serialized even when it points
at `0`). -/
def DNSRecord.jsonFields (r : DNSRecord) : List (String × JValue) :=
  (if r.ID = "" then [] else [("id", JValue.str r.ID)]) ++
  (if r.Name = "" then [] else [("name", JValue.str r.Name)]) ++
  (if r.«Type» = "" then [] else [("type", JValue.str r.«Type»)]) ++
  (if r.Content = "" then [] else [("content", JValue.str r.Content)]) ++
  (if r.TTL = 0 then [] else [("ttl", JValue.num r.TTL)]) ++
  (match r.Prio with
   | none => []
   | some p => [("prio", JValue.num p)]) ++
  (if r.Notes = "" then [] else [("notes", JValue.str r.Notes)])

/-- Top-level JSON fields of a marshalled `dnsRecordWithAuth`: the
promoted `Auth` fields first, then the promoted `DNSRecord` fields,
all at the top level of one object. -/
def dnsRecordWithAuth.jsonFields (w : dnsRecordWithAuth) : List (String × JValue) :=
  w.auth.jsonFields ++ w.record.jsonFields

/-- `func (c *Client) getAuthJson()` — marshals `c.config.Auth`.  The
`json.Marshal` error branch cannot fire for this type. -/
def getAuthJson (auth : Auth) : List (String × JValue) :=
  auth.jsonFields

/-- `func (c *Client) getDNSRecordWithAuthJson(dnsRecord *DNSRecord)` —
marshals a `dnsRecordWithAuth{Auth: c.config.Auth, DNSRecord: *dnsRecord}`. -/
def getDNSRecordWithAuthJson (auth : Auth) (dnsRecord : DNSRecord) : List (String × JValue) :=
  dnsRecordWithAuth.jsonFields { auth := auth, record := dnsRecord }

/-! ## Client construction -/

/-- An `*http.Client` handle; only its identity matters to `dns.go`. -/
structure GoHTTPClient where
  id : Nat
  deriving Repr, DecidableEq

/-- `http.DefaultClient` -/
def defaultHTTPClient : GoHTTPClient := { id := 0 }

/-- `type Config struct { Auth Auth; Client *http.Client }` — the
`Client` pointer may be nil. -/
structure Config where
  Auth : Auth
  Client : Option GoHTTPClient
  deriving Repr, DecidableEq

/-- `type Client struct { config Config }` after `NewClient` has run: the
transport handle is definitely set. -/
structure Client where
  auth : Auth
  httpClient : GoHTTPClient
  deriving Repr, DecidableEq

/-- `func NewClient(cfg *Config) (*Client, error)` — rejects empty
credentials, defaults the transport to `http.DefaultClient`. -/
def NewClient (cfg : Config) : Except GoError Client :=
  if cfg.Auth.APIKey = "" then
    .error (GoError.config "APIKey should not be empty")
  else if cfg.Auth.SecretAPIKey = "" then
    .error (GoError.config "SecretAPIKey should not be empty")
  else
    .ok { auth := cfg.Auth, httpClient := cfg.Client.getD defaultHTTPClient }

/-! ## Helper land -/

/-- `func requireSuccess(dnsRes *DNSResponse) error` — `nil` (`none`)
iff the status equals `"SUCCESS"` up to case folding. -/
def requireSuccess (dnsRes : DNSResponse) : Option GoError :=
  if stringEqualFold dnsRes.Status STATUS_SUCCESS then none
  else some (GoError.apiStatus dnsRes.Status)

/-- `func generateUnexpectedResponseCodeError(resp *http.Response) error`
— reads the body into the message; its `resp.Body.Close()` call is
accounted at the call site in `requireOK`. -/
def generateUnexpectedResponseCodeError (resp : HTTPResponse) : GoError :=
  GoError.unexpectedStatus resp.statusCode resp.bodyText

/-- The `(res, err, closes)` triple `requireOK` produces: the returned
response pointer (`none` = nil), the returned error, and how many
`Body.Close()` calls it made through a valid handle. -/
structure ReqOK where
  res : Option HTTPResponse
  err : Option GoError
  closes : Nat
  deriving Repr, DecidableEq

/-- `func requireOK(res *http.Response, err error) (*http.Response, error)`
— on a transport error closes the body if the response is non-nil and
passes the error through unchanged; on a non-200 status builds the
unexpected-status error (which reads and closes the body); on 200 hands
the response back.  Note it returns a nil response on both error paths. -/
def requireOK (pr : PostResult) : ReqOK :=
  match pr with
  | .fail r e =>
      { res := none, err := some (GoError.transport e),
        closes := if r.isSome then 1 else 0 }
  | .ok r =>
      if r.statusCode ≠ 200 then
        { res := none, err := some (generateUnexpectedResponseCodeError r), closes := 1 }
      else
        { res := some r, err := none, closes := 0 }

/-- `func extractDNSResponse(res *http.Response, err error) (*DNSResponse, error)`.
The operations only reach this call with a non-nil `res` (a nil one
panics earlier at the deferred close), so `res` is taken directly.
Note line 124 of the source: when `requireSuccess` fails, the function
returns the **parameter** `err` — which is necessarily `nil` at that
point — instead of the status error, so the status error is swallowed. -/
def extractDNSResponse (res : HTTPResponse) (err : Option GoError) :
    Option DNSResponse × Option GoError :=
  match err with
  | some e => (some emptyDNSResponse, some e)
  | none =>
      match res.bodyDecode with
      | none => (some emptyDNSResponse, some GoError.decodeFail)
      | some dnsResp =>
          if (requireSuccess dnsResp).isSome then
            (some emptyDNSResponse, none)
          else
            (some dnsResp, none)

/-! ## Main function land

Each operation marshals its payload, posts it, runs the posted result
through `requireOK`, executes `defer res.Body.Close()`, and finishes in
`extractDNSResponse`.  The `defer` statement evaluates `res.Body` at
once, so when `requireOK` returned a nil response (transport error or
non-200 status) the operation panics right there; otherwise the deferred
close fires at return, adding one `Body.Close()` on the valid handle.
The URL formatting (`fmt.Sprintf` on the endpoint templates) has no
bearing on any behaviour modelled here and is not represented; the
transport is a function from the posted payload to its result. -/

/-- The shared tail of the four operations, from the `Post` result to the
operation's outcome. -/
def runOp (pr : PostResult) : OpResult :=
  let r := requireOK pr
  match r.res with
  | none => OpResult.panicked r.closes
  | some res =>
      let out := extractDNSResponse res r.err
      OpResult.ret out.1 out.2 (r.closes + 1)

/-- `func (c *Client) CreateRecord(domain string, dnsrecord *DNSRecord)` -/
def CreateRecord (c : Client) (_domain : String) (dnsrecord : DNSRecord)
    (transport : List (String × JValue) → PostResult) : OpResult :=
  runOp (transport (getDNSRecordWithAuthJson c.auth dnsrecord))

/-- `func (c *Client) EditRecord(domain string, id string, dnsrecord *DNSRecord)` -/
def EditRecord (c : Client) (_domain : String) (_id : String) (dnsrecord : DNSRecord)
    (transport : List (String × JValue) → PostResult) : OpResult :=
  runOp (transport (getDNSRecordWithAuthJson c.auth dnsrecord))

/-- `func (c *Client) DeleteRecord(domain string, id string)` -/
def DeleteRecord (c : Client) (_domain : String) (_id : String)
    (transport : List (String × JValue) → PostResult) : OpResult :=
  runOp (transport (getAuthJson c.auth))

/-- `func (c *Client) RetrieveRecords(domain string)` -/
def RetrieveRecords (c : Client) (_domain : String)
    (transport : List (String × JValue) → PostResult) : OpResult :=
  runOp (transport (getAuthJson c.auth))

/-! ## Sample inputs used by concrete evaluations -/

/-- A client with non-empty credentials, as `NewClient` produces. -/
def sampleClient : Client :=
  { auth := { APIKey := "pk1", SecretAPIKey := "sk1" }, httpClient := defaultHTTPClient }

/-- A typical DNS record input. -/
def sampleRecord : DNSRecord :=
  { ID := "", Name := "www", «Type» := "A", Content := "1.2.3.4",
    TTL := 600, Prio := none, Notes := "" }

/-- The decoded body of a 200 response whose API-level status is `"ERROR"`. -/
def errorStatusResponse : DNSResponse :=
  { Status := "ERROR", Id := "", Records := [] }

/-- A 200 HTTP response carrying API-level status `"ERROR"`. -/
def res200statusError : HTTPResponse :=
  { statusCode := 200, bodyText := "\x7b\"status\":\"ERROR\"\x7d",
    bodyDecode := some errorStatusResponse }

/-- A 500 HTTP response with a plain-text body. -/
def res500 : HTTPResponse :=
  { statusCode := 500, bodyText := "backend exploded", bodyDecode := none }

/-- The decoded body of a successful 200 response. -/
def successResponse : DNSResponse :=
  { Status := "SUCCESS", Id := "rec-9", Records := [] }

/-- A 200 HTTP response whose body decodes to `successResponse`. -/
def res200success : HTTPResponse :=
  { statusCode := 200, bodyText := "\x7b\"status\":\"SUCCESS\",\"id\":\"rec-9\"\x7d",
    bodyDecode := some successResponse }

/-- The decoded body of a 200 response with mixed-case status `"Success"`. -/
def mixedCaseResponse : DNSResponse :=
  { Status := "Success", Id := "", Records := [] }

/-- A 200 HTTP response whose body decodes to `mixedCaseResponse`. -/
def res200mixedCase : HTTPResponse :=
  { statusCode := 200, bodyText := "\x7b\"status\":\"Success\"\x7d",
    bodyDecode := some mixedCaseResponse }

/-- A 200 HTTP response whose body is not valid `DNSResponse` JSON. -/
def res200badJson : HTTPResponse :=
  { statusCode := 200, bodyText := "not json", bodyDecode := none }

/-- A second DNS record, with a priority set. -/
def sampleRecord2 : DNSRecord :=
  { ID := "2", Name := "mail", «Type» := "MX", Content := "mx.example.com",
    TTL := 300, Prio := some 10, Notes := "" }

/-- The decoded body of a successful retrieval carrying two records. -/
def twoRecordsResponse : DNSResponse :=
  { Status := "SUCCESS", Id := "", Records := [sampleRecord, sampleRecord2] }

/-- A 200 HTTP response whose body decodes to `twoRecordsResponse`. -/
def res200twoRecords : HTTPResponse :=
  { statusCode := 200, bodyText := "\x7b\"status\":\"SUCCESS\",\"records\":[...]\x7d",
    bodyDecode := some twoRecordsResponse }

/-! ## Helper lemmas -/

/-- A status that case-folds to `"SUCCESS"` passes `requireSuccess`. -/
theorem requireSuccess_eq_none_of_fold (d : DNSResponse)
    (h : stringEqualFold d.Status STATUS_SUCCESS = true) :
    requireSuccess d = none := by
  unfold requireSuccess
  simp [h]

/-- On a 200 response whose body decodes to a response passing
`requireSuccess`, the operation tail returns the decoded response with a
nil error, closing the body once (at the deferred close). -/
theorem runOp_ok_success (res : HTTPResponse) (d : DNSResponse)
    (h200 : res.statusCode = 200) (hdec : res.bodyDecode = some d)
    (hsucc : requireSuccess d = none) :
    runOp (PostResult.ok res) = OpResult.ret (some d) none 1 := by
  unfold runOp requireOK
  simp [h200, extractDNSResponse, hdec, hsucc]

/-- Whenever the operation tail returns normally with a non-nil error,
the response pointer it returns is a non-nil pointer to the zero-valued
`DNSResponse`. -/
theorem runOp_ret_error_resp (pr : PostResult) (resp : Option DNSResponse)
    (err : Option GoError) (n : Nat)
    (h : runOp pr = OpResult.ret resp err n) (he : err.isSome = true) :
    resp = some emptyDNSResponse := by
  cases pr with
  | fail r e => simp [runOp, requireOK] at h
  | ok r =>
    by_cases h200 : r.statusCode = 200
    · cases hdec : r.bodyDecode with
      | none =>
        simp [runOp, requireOK, h200, extractDNSResponse, hdec] at h
        exact h.1.symm
      | some d =>
        by_cases hs : (requireSuccess d).isSome
        · simp [runOp, requireOK, h200, extractDNSResponse, hdec, hs] at h
          exact h.1.symm
        · simp [runOp, requireOK, h200, extractDNSResponse, hdec, hs] at h
          rw [h.2.1.symm] at he
          simp at he
    · simp [runOp, requireOK, h200] at h

/-! ## Claims -/

/-- C1: the claim says that on a 200 response whose API-level status is
not "SUCCESS" the operation returns an error carrying that status
string.  The code computes that error in `requireSuccess`, but line 124
of `extractDNSResponse` returns the stale parameter `err` — necessarily
nil there — instead of it: on a 200 response with status "ERROR" the
operation returns a nil error and an empty response, and the status
error is swallowed. -/
theorem C1_api_status_error_swallowed :
    requireSuccess errorStatusResponse = some (GoError.apiStatus "ERROR") ∧
    RetrieveRecords sampleClient "example.com" (fun _ => PostResult.ok res200statusError) =
      OpResult.ret (some emptyDNSResponse) none 1 := by
  decide

/-- C2: the claim says a transport error from `Post` is returned to the
caller unchanged.  `requireOK` does pass the error through unwrapped,
but it returns a nil response alongside it, and the operation's
`defer res.Body.Close()` statement dereferences that nil response: the
operation panics and the error is never returned. -/
theorem C2_transport_error_panics :
    requireOK (PostResult.fail none "connection refused") =
      { res := none, err := some (GoError.transport "connection refused"), closes := 0 } ∧
    CreateRecord sampleClient "example.com" sampleRecord
      (fun _ => PostResult.fail none "connection refused") = OpResult.panicked 0 := by
  decide

/-- C3: the claim says a non-200 response makes the operation return an
error carrying the status code and the body text.  `requireOK` does
build exactly that error (and its message renders both), but it returns
a nil response alongside it, and the operation's deferred close
dereferences that nil response: the operation panics on a 500 response
instead of returning the error. -/
theorem C3_unexpected_status_error_never_returned :
    requireOK (PostResult.ok res500) =
      { res := none, err := some (GoError.unexpectedStatus 500 "backend exploded"),
        closes := 1 } ∧
    errMessage (GoError.unexpectedStatus 500 "backend exploded") =
      "Unexpected response code: 500 (backend exploded)" ∧
    DeleteRecord sampleClient "example.com" "42" (fun _ => PostResult.ok res500) =
      OpResult.panicked 1 := by
  decide

/-- C4: the claim says every exit path closes the body through a valid
(non-nil) response handle.  The success path does close it exactly once,
but on a transport error `requireOK` hands a nil response to the
deferred `res.Body.Close()`, which dereferences it: that exit path
panics on a nil response instead of closing a valid handle. -/
theorem C4_nil_response_deref_at_deferred_close :
    RetrieveRecords sampleClient "example.com" (fun _ => PostResult.ok res200success) =
      OpResult.ret (some successResponse) none 1 ∧
    EditRecord sampleClient "example.com" "7" sampleRecord
      (fun _ => PostResult.fail none "timeout") = OpResult.panicked 0 := by
  decide

/-- C5: for every record input and non-empty credentials, the payload
`CreateRecord`/`EditRecord` marshal is the flat concatenation of the
auth fields and the record's set fields in one top-level object (the
field values are strings and numbers, so there is no nesting), with both
auth keys present and no record field lost. -/
theorem C5_create_edit_payload_flat_merge (auth : Auth) (rec : DNSRecord)
    (hk : auth.APIKey ≠ "") (hs : auth.SecretAPIKey ≠ "") :
    getDNSRecordWithAuthJson auth rec = Auth.jsonFields auth ++ DNSRecord.jsonFields rec ∧
    ("apikey", JValue.str auth.APIKey) ∈ getDNSRecordWithAuthJson auth rec ∧
    ("secretapikey", JValue.str auth.SecretAPIKey) ∈ getDNSRecordWithAuthJson auth rec ∧
    (∀ f ∈ DNSRecord.jsonFields rec, f ∈ getDNSRecordWithAuthJson auth rec) := by
  refine ⟨rfl, ?_, ?_, ?_⟩
  · simp [getDNSRecordWithAuthJson, dnsRecordWithAuth.jsonFields, Auth.jsonFields, hk, hs]
  · simp [getDNSRecordWithAuthJson, dnsRecordWithAuth.jsonFields, Auth.jsonFields, hk, hs]
  · intro f hf
    simp only [getDNSRecordWithAuthJson, dnsRecordWithAuth.jsonFields, List.mem_append]
    exact Or.inr hf

/-- C5 witness: the flat-merge property evaluated at the sample
credentials and record. -/
theorem C5_create_edit_payload_flat_merge_witness :
    getDNSRecordWithAuthJson sampleClient.auth sampleRecord =
      Auth.jsonFields sampleClient.auth ++ DNSRecord.jsonFields sampleRecord ∧
    ("apikey", JValue.str sampleClient.auth.APIKey) ∈
      getDNSRecordWithAuthJson sampleClient.auth sampleRecord ∧
    ("secretapikey", JValue.str sampleClient.auth.SecretAPIKey) ∈
      getDNSRecordWithAuthJson sampleClient.auth sampleRecord ∧
    (∀ f ∈ DNSRecord.jsonFields sampleRecord,
      f ∈ getDNSRecordWithAuthJson sampleClient.auth sampleRecord) :=
  C5_create_edit_payload_flat_merge sampleClient.auth sampleRecord
    (by decide) (by decide)

/-- C6: every top-level field of the `DeleteRecord`/`RetrieveRecords`
payload is one of the two auth keys — in particular no record field name
occurs — and both operations post exactly the marshalled auth payload. -/
theorem C6_delete_retrieve_payload_auth_only :
    (∀ (auth : Auth) (kv : String × JValue), kv ∈ getAuthJson auth →
      (kv.1 = "apikey" ∨ kv.1 = "secretapikey") ∧
      kv.1 ∉ ["id", "name", "type", "content", "ttl", "prio", "notes"]) ∧
    (∀ (c : Client) (domain idStr : String)
      (transport : List (String × JValue) → PostResult),
      DeleteRecord c domain idStr transport = runOp (transport (getAuthJson c.auth)) ∧
      RetrieveRecords c domain transport = runOp (transport (getAuthJson c.auth))) := by
  constructor
  · intro a kv h
    unfold getAuthJson Auth.jsonFields at h
    rcases List.mem_append.mp h with h1 | h1 <;>
      (split at h1 <;> simp_all)
  · intro c domain idStr transport
    exact ⟨rfl, rfl⟩

/-- C6 witness: the auth-only property evaluated at the sample
credentials' first payload field. -/
theorem C6_delete_retrieve_payload_auth_only_witness :
    ((("apikey", JValue.str "pk1") : String × JValue).1 = "apikey" ∨
      (("apikey", JValue.str "pk1") : String × JValue).1 = "secretapikey") ∧
    (("apikey", JValue.str "pk1") : String × JValue).1 ∉
      ["id", "name", "type", "content", "ttl", "prio", "notes"] :=
  C6_delete_retrieve_payload_auth_only.1 sampleClient.auth
    ("apikey", JValue.str "pk1") (by decide)

/-- C7: on a 200 response whose body decodes to status "SUCCESS" with a
records array `[r1, r2]`, every operation returns the decoded response
unchanged — in particular exactly those two records in order — with a
nil error. -/
theorem C7_success_records_returned_in_order
    (c : Client) (domain idStr : String) (rec : DNSRecord)
    (res : HTTPResponse) (d : DNSResponse) (r1 r2 : DNSRecord)
    (transport : List (String × JValue) → PostResult)
    (h200 : res.statusCode = 200) (hdec : res.bodyDecode = some d)
    (hst : d.Status = "SUCCESS") (hrecs : d.Records = [r1, r2])
    (htr1 : transport (getDNSRecordWithAuthJson c.auth rec) = PostResult.ok res)
    (htr2 : transport (getAuthJson c.auth) = PostResult.ok res) :
    CreateRecord c domain rec transport = OpResult.ret (some d) none 1 ∧
    EditRecord c domain idStr rec transport = OpResult.ret (some d) none 1 ∧
    DeleteRecord c domain idStr transport = OpResult.ret (some d) none 1 ∧
    RetrieveRecords c domain transport = OpResult.ret (some d) none 1 ∧
    d.Records = [r1, r2] := by
  have hsucc : requireSuccess d = none := by
    unfold requireSuccess
    rw [hst]
    decide
  refine ⟨?_, ?_, ?_, ?_, hrecs⟩
  · unfold CreateRecord
    rw [htr1]
    exact runOp_ok_success res d h200 hdec hsucc
  · unfold EditRecord
    rw [htr1]
    exact runOp_ok_success res d h200 hdec hsucc
  · unfold DeleteRecord
    rw [htr2]
    exact runOp_ok_success res d h200 hdec hsucc
  · unfold RetrieveRecords
    rw [htr2]
    exact runOp_ok_success res d h200 hdec hsucc

/-- C7 witness: a 200 response decoding to status "SUCCESS" with two
records, evaluated on every operation. -/
theorem C7_success_records_returned_in_order_witness :
    CreateRecord sampleClient "example.com" sampleRecord
      (fun _ => PostResult.ok res200twoRecords) =
      OpResult.ret (some twoRecordsResponse) none 1 ∧
    EditRecord sampleClient "example.com" "7" sampleRecord
      (fun _ => PostResult.ok res200twoRecords) =
      OpResult.ret (some twoRecordsResponse) none 1 ∧
    DeleteRecord sampleClient "example.com" "7"
      (fun _ => PostResult.ok res200twoRecords) =
      OpResult.ret (some twoRecordsResponse) none 1 ∧
    RetrieveRecords sampleClient "example.com"
      (fun _ => PostResult.ok res200twoRecords) =
      OpResult.ret (some twoRecordsResponse) none 1 ∧
    twoRecordsResponse.Records = [sampleRecord, sampleRecord2] :=
  C7_success_records_returned_in_order sampleClient "example.com" "7" sampleRecord
    res200twoRecords twoRecordsResponse sampleRecord sampleRecord2
    (fun _ => PostResult.ok res200twoRecords) rfl rfl rfl rfl rfl rfl

/-- C8: `NewClient` fails with a config error whenever the supplied
`APIKey` or `SecretAPIKey` is empty, and succeeds — defaulting the
transport when none is supplied — whenever both are non-empty. -/
theorem C8_newclient_validates_credentials (cfg : Config) :
    ((cfg.Auth.APIKey = "" ∨ cfg.Auth.SecretAPIKey = "") →
      ∃ msg, NewClient cfg = Except.error (GoError.config msg)) ∧
    (cfg.Auth.APIKey ≠ "" → cfg.Auth.SecretAPIKey ≠ "" →
      NewClient cfg =
        Except.ok { auth := cfg.Auth, httpClient := cfg.Client.getD defaultHTTPClient }) := by
  constructor
  · rintro (h | h)
    · exact ⟨"APIKey should not be empty", by simp [NewClient, h]⟩
    · by_cases hk : cfg.Auth.APIKey = ""
      · exact ⟨"APIKey should not be empty", by simp [NewClient, hk]⟩
      · exact ⟨"SecretAPIKey should not be empty", by simp [NewClient, hk, h]⟩
  · intro hk hs
    simp [NewClient, hk, hs]

/-- C8 witness: evaluated on an empty-key config and on a complete one. -/
theorem C8_newclient_validates_credentials_witness :
    (∃ msg, NewClient { Auth := { APIKey := "", SecretAPIKey := "sk1" }, Client := none } =
      Except.error (GoError.config msg)) ∧
    NewClient { Auth := { APIKey := "pk1", SecretAPIKey := "sk1" }, Client := none } =
      Except.ok { auth := { APIKey := "pk1", SecretAPIKey := "sk1" },
                  httpClient :=
                    (Option.getD (none : Option GoHTTPClient) defaultHTTPClient) } :=
  ⟨(C8_newclient_validates_credentials
      { Auth := { APIKey := "", SecretAPIKey := "sk1" }, Client := none }).1 (Or.inl rfl),
   (C8_newclient_validates_credentials
      { Auth := { APIKey := "pk1", SecretAPIKey := "sk1" }, Client := none }).2
      (by decide) (by decide)⟩

/-- C9: the success check is case-insensitive: any decoded status that
equals "SUCCESS" up to case folding passes `requireSuccess`, and a 200
response decoding to such a status is treated as successful — the
decoded response is returned with a nil error. -/
theorem C9_success_check_case_insensitive
    (d : DNSResponse) (c : Client) (domain : String) (res : HTTPResponse)
    (transport : List (String × JValue) → PostResult)
    (hfold : stringEqualFold d.Status STATUS_SUCCESS = true)
    (h200 : res.statusCode = 200) (hdec : res.bodyDecode = some d)
    (htr : transport (getAuthJson c.auth) = PostResult.ok res) :
    requireSuccess d = none ∧
    RetrieveRecords c domain transport = OpResult.ret (some d) none 1 := by
  have hsucc := requireSuccess_eq_none_of_fold d hfold
  refine ⟨hsucc, ?_⟩
  unfold RetrieveRecords
  rw [htr]
  exact runOp_ok_success res d h200 hdec hsucc

/-- C9 witness: the mixed-case status "Success" is accepted. -/
theorem C9_success_check_case_insensitive_witness :
    requireSuccess mixedCaseResponse = none ∧
    RetrieveRecords sampleClient "example.com" (fun _ => PostResult.ok res200mixedCase) =
      OpResult.ret (some mixedCaseResponse) none 1 :=
  C9_success_check_case_insensitive mixedCaseResponse sampleClient "example.com"
    res200mixedCase (fun _ => PostResult.ok res200mixedCase) (by decide) rfl rfl rfl

/-- C10: whenever an operation returns normally with a non-nil error
(marshalling cannot fail for these payload types, so that is the decode
failure path), the response it returns is a non-nil pointer to the
zero-valued `DNSResponse`, never a nil pointer. -/
theorem C10_error_return_is_nonnil_empty
    (c : Client) (domain idStr : String) (rec : DNSRecord)
    (transport : List (String × JValue) → PostResult)
    (resp : Option DNSResponse) (err : Option GoError) (n : Nat) :
    (CreateRecord c domain rec transport = OpResult.ret resp err n →
      err.isSome = true → resp = some emptyDNSResponse) ∧
    (EditRecord c domain idStr rec transport = OpResult.ret resp err n →
      err.isSome = true → resp = some emptyDNSResponse) ∧
    (DeleteRecord c domain idStr transport = OpResult.ret resp err n →
      err.isSome = true → resp = some emptyDNSResponse) ∧
    (RetrieveRecords c domain transport = OpResult.ret resp err n →
      err.isSome = true → resp = some emptyDNSResponse) :=
  ⟨fun h he => runOp_ret_error_resp _ resp err n h he,
   fun h he => runOp_ret_error_resp _ resp err n h he,
   fun h he => runOp_ret_error_resp _ resp err n h he,
   fun h he => runOp_ret_error_resp _ resp err n h he⟩

/-- C10 witness: a 200 response with an undecodable body makes
`RetrieveRecords` return a decode error together with a non-nil empty
response. -/
theorem C10_error_return_is_nonnil_empty_witness :
    (some emptyDNSResponse : Option DNSResponse) = some emptyDNSResponse :=
  (C10_error_return_is_nonnil_empty sampleClient "example.com" "7" sampleRecord
    (fun _ => PostResult.ok res200badJson) (some emptyDNSResponse)
    (some GoError.decodeFail) 1).2.2.2 (by decide) rfl

end Porkbun
